import Mathlib

/-!
# Verification of the apix manifest-driven request pipeline

This file gives a shallow embedding, in Lean 4, of the template-rendering
and request-execution core of the apix CLI (files `src/template.rs`,
`src/execute.rs`, `src/requests.rs`, `src/http_utils.rs`, `src/dialog.rs`,
`src/manifests/mod.rs`), and proves or refutes the specification claims
about that core.

Conventions of the embedding:
* `serde_json::Value` is modelled by the mutual inductive `Json` below,
  with integer numbers (no claim involves floating-point numbers).
* `IndexMap<String, T>` (insertion-ordered maps) are modelled by
  association lists `List (String × T)` / the mutual `JsonObj`.
* The Tera template engine is an external dependency of the repository;
  it is modelled by a small concrete interpolation engine (`teraScan`)
  that substitutes `\x7b\x7b path \x7d\x7d` expressions by a dotted-path
  lookup in the context, which is the contract the adapter in
  `src/template.rs` relies on.  Template registration by name
  (`add_raw_template`) is a cache only; the name is kept for diagnostics.
* Fallible Rust code returning `Result` is modelled with `Except String`;
  a Rust `panic!` / `.unwrap()` abort is modelled by the dedicated
  `Outcome.panicked` constructor where it matters.
-/

set_option maxRecDepth 10000

-- Model of `serde_json::Value` (`Json`), `Vec<Value>` (`JsonArr`) and
-- `serde_json::Map<String, Value>` / `IndexMap<String, Value>` (`JsonObj`,
-- an insertion-ordered association list).  Numbers are modelled as integers:
-- no claim under verification involves floating-point values.
mutual

inductive Json where
  | null
  | bool (b : Bool)
  | num (n : Int)
  | str (s : String)
  | arr (elems : JsonArr)
  | obj (fields : JsonObj)
deriving DecidableEq

inductive JsonArr where
  | nil
  | cons (hd : Json) (tl : JsonArr)
deriving DecidableEq

inductive JsonObj where
  | nil
  | cons (key : String) (val : Json) (tl : JsonObj)
deriving DecidableEq

end

/-- Lookup of a key in a JSON object, first binding wins
(model of `serde_json::Map::get` / `IndexMap::get`). -/
def objFind (key : String) : JsonObj → Option Json
  | .nil => Option.none
  | .cons k v rest => if key = k then some v else objFind key rest

/-- Insert of a key in a JSON object: replaces the value in place when the
key is present, else appends (model of `IndexMap::insert` /
`tera::Context::insert`). -/
def objInsert (key : String) (v : Json) : JsonObj → JsonObj
  | .nil => .cons key v .nil
  | .cons k w rest => if key = k then .cons k v rest else .cons k w (objInsert key v rest)

/-- Lookup in a string association list (model of `IndexMap<String, String>::get`). -/
def assocFind (key : String) : List (String × String) → Option String
  | [] => Option.none
  | (k, v) :: rest => if key = k then some v else assocFind key rest

/-- A string map as a JSON object (serde serialization of
`HashMap<String, String>` / `IndexMap<String, String>`). -/
def stringMapToObj : List (String × String) → JsonObj
  | [] => .nil
  | (k, v) :: rest => .cons k (.str v) (stringMapToObj rest)

/-- How a scalar JSON value is printed when substituted into a template
(model of the Tera value rendering: strings print raw, numbers and booleans
print canonically; compound values and `null` cannot be interpolated). -/
def displayValue : Json → Option String
  | .str s => some s
  | .num n => some (toString n)
  | .bool true => some "true"
  | .bool false => some "false"
  | _ => Option.none

/-- Split a list of characters on a separator character. -/
def splitOnChar (sep : Char) : List Char → List String
  | [] => [""]
  | c :: rest =>
    if c = sep then "" :: splitOnChar sep rest
    else match splitOnChar sep rest with
      | [] => [String.mk [c]]
      | s :: ss => String.mk (c :: s.data) :: ss

/-- Trim ASCII spaces at both ends of a character list. -/
def trimChars (cs : List Char) : List Char :=
  ((cs.dropWhile (· = ' ')).reverse.dropWhile (· = ' ')).reverse

/-- Dotted-path descent inside a JSON value (model of Tera variable
resolution below the top context key). -/
def jsonGetPath : Json → List String → Option Json
  | v, [] => some v
  | .obj fields, key :: rest =>
    match objFind key fields with
    | some v => jsonGetPath v rest
    | Option.none => Option.none
  | _, _ :: _ => Option.none

/-- Evaluate one template expression (the text between braces): trim it,
split it on dots, look the path up in the context and print the scalar
found there.  Any failure is a template error carrying the template
name, as in Tera. -/
def exprEval (name : String) (ctx : JsonObj) (acc : List Char) : Except String String :=
  match splitOnChar '.' (trimChars acc) with
  | [] => .error (name ++ ": empty template expression")
  | key :: rest =>
    match objFind key ctx with
    | Option.none => .error (name ++ ": variable not found: " ++ key)
    | some v =>
      match jsonGetPath v rest with
      | Option.none => .error (name ++ ": path not found in variable: " ++ key)
      | some v' =>
        match displayValue v' with
        | some s => .ok s
        | Option.none => .error (name ++ ": value cannot be interpolated")

/-- Scanner state of the template interpolation engine: plain text, one
open brace seen, inside an expression, or one close brace seen inside an
expression. -/
inductive ScanMode where
  | text
  | brace1
  | expr (acc : List Char)
  | close1 (acc : List Char)

/-- The template interpolation engine (model of `Tera::render` for the
interpolation-only templates the apix adapter produces): copies text,
and replaces each `\x7b\x7b path \x7d\x7d` expression by the scalar the
dotted path denotes in the context.  Unknown variables and unterminated
expressions are template errors naming the template. -/
def teraScan (name : String) (ctx : JsonObj) : ScanMode → List Char → Except String (List Char)
  | .text, [] => .ok []
  | .brace1, [] => .ok ['\x7b']
  | .expr _, [] => .error (name ++ ": unexpected end of template expression")
  | .close1 _, [] => .error (name ++ ": unexpected end of template expression")
  | .text, c :: rest =>
    if c = '\x7b' then teraScan name ctx .brace1 rest
    else (teraScan name ctx .text rest).map (c :: ·)
  | .brace1, c :: rest =>
    if c = '\x7b' then teraScan name ctx (.expr []) rest
    else (teraScan name ctx .text rest).map (fun cs => '\x7b' :: c :: cs)
  | .expr acc, c :: rest =>
    if c = '\x7d' then teraScan name ctx (.close1 acc) rest
    else teraScan name ctx (.expr (acc ++ [c])) rest
  | .close1 acc, c :: rest =>
    if c = '\x7d' then do
      let s ← exprEval name ctx acc
      let tail ← teraScan name ctx .text rest
      .ok (s.data ++ tail)
    else teraScan name ctx (.expr (acc ++ ['\x7d', c])) rest

/-- Model of the adapter `StringTemplate::render_string`
(`src/template.rs`): register the template under `name` and render it
against the context. -/
def renderString (name : String) (content : String) (ctx : JsonObj) : Except String String :=
  (teraScan name ctx .text content.data).map String.mk

/-- Model of the adapter `MapTemplate::render_map` (`src/template.rs`):
render every value of the map as a template named `name.key`; keys pass
through unchanged and insertion order is preserved. -/
def renderMap (name : String) (map : List (String × String)) (ctx : JsonObj) :
    Except String (List (String × String)) :=
  match map with
  | [] => .ok []
  | (key, val) :: rest => do
    let newContent ← renderString (name ++ "." ++ key) val ctx
    let tail ← renderMap name rest ctx
    .ok ((key, newContent) :: tail)

mutual

/-- Model of the adapter `ValueTemplate::render_value`
(`src/template.rs`): recursively walk objects (child templates named
`name.key`), arrays (child templates named `name.index`) and render
string leaves as templates; all other scalars pass through unchanged. -/
def renderValue (name : String) (value : Json) (ctx : JsonObj) : Except String Json :=
  match value with
  | .obj obj => (renderValueObj name obj ctx).map Json.obj
  | .arr arr => (renderValueArr name 0 arr ctx).map Json.arr
  | .str content => (renderString name content ctx).map Json.str
  | v => .ok v

/-- Object part of `render_value`: renders each field value under the
template name `name.key`. -/
def renderValueObj (name : String) (fields : JsonObj) (ctx : JsonObj) : Except String JsonObj :=
  match fields with
  | .nil => .ok .nil
  | .cons key val rest => do
    let v ← renderValue (name ++ "." ++ key) val ctx
    let tail ← renderValueObj name rest ctx
    .ok (.cons key v tail)

/-- Array part of `render_value`: renders each element under the template
name `name.index`. -/
def renderValueArr (name : String) (index : Nat) (elems : JsonArr) (ctx : JsonObj) :
    Except String JsonArr :=
  match elems with
  | .nil => .ok .nil
  | .cons hd tl => do
    let v ← renderValue (name ++ "." ++ toString index) hd ctx
    let tail ← renderValueArr name (index + 1) tl ctx
    .ok (.cons v tail)

end

/-! ## Data model (`src/manifests/mod.rs`, `src/requests.rs`) -/

/-- Model of `ApixParameter` (`src/manifests/mod.rs`): a manifest-declared
parameter.  The JSON-schema defaults to `type: string` at deserialization
time (`default_schema`); the schema itself is an arbitrary JSON value. -/
structure ApixParameter where
  name : String
  required : Bool
  password : Bool
  description : Option String
  schema : Option Json
deriving DecidableEq

/-- Model of `ApixRequestTemplate` (`src/manifests/mod.rs`): the templated
request fields.  Header and query maps are insertion-ordered. -/
structure ApixRequestTemplate where
  method : String
  url : String
  headers : List (String × String)
  queries : List (String × String)
  body : Option Json
deriving DecidableEq

/-- Model of `ApixRequest` (`src/manifests/mod.rs`). -/
structure ApixRequest where
  parameters : List ApixParameter
  context : JsonObj
  request : ApixRequestTemplate
deriving DecidableEq

/-- Model of `ApixMetadata` (`src/manifests/mod.rs`). -/
structure ApixMetadata where
  name : String
  labels : List (String × String)
  annotations : List (String × String)
  extensions : List (String × String)
deriving DecidableEq

/-- Model of `ApixKind` (`src/manifests/mod.rs`).  The payloads of the
`Api`, `Configuration` and `Story` variants play no part in request
execution (`RequestTemplate::new` rejects them) and are elided. -/
inductive ApixKind where
  | api
  | configuration
  | request (request : ApixRequest)
  | story
  | none
deriving DecidableEq

/-- Model of `ApixManifestV1` (`src/manifests/mod.rs`). -/
structure ApixManifestV1 where
  metadata : ApixMetadata
  kind : ApixKind
deriving DecidableEq

/-- Model of `ApixManifest` (`src/manifests/mod.rs`). -/
inductive ApixManifest where
  | v1 (manifest : ApixManifestV1)
  | none
deriving DecidableEq

/-- Model of `ApixManifest::kind`. -/
def manifestKind : ApixManifest → ApixKind
  | .v1 m => m.kind
  | .none => .none

/-- Model of `ApixManifest::get_annotation`: looks a key up in the
metadata annotations of a V1 manifest. -/
def annotationValue (manifest : ApixManifest) (key : String) : Option String :=
  match manifest with
  | .v1 m => assocFind key m.metadata.annotations
  | .none => Option.none

/-- Append two JSON objects (used for serde `flatten`ed fields). -/
def objAppend : JsonObj → JsonObj → JsonObj
  | .nil, o => o
  | .cons k v rest, o => .cons k v (objAppend rest o)

/-- Serde serialization of one `ApixParameter` (`description` is always
emitted, `schema` is skipped when absent, as the serde attributes say). -/
def parameterToJson (p : ApixParameter) : Json :=
  .obj (.cons "name" (.str p.name)
    (.cons "required" (.bool p.required)
      (.cons "password" (.bool p.password)
        (.cons "description" (match p.description with | some d => .str d | Option.none => .null)
          (match p.schema with | some s => .cons "schema" s .nil | Option.none => .nil)))))

/-- Serde serialization of a parameter list. -/
def parametersToJsonArr : List ApixParameter → JsonArr
  | [] => .nil
  | p :: rest => .cons (parameterToJson p) (parametersToJsonArr rest)

/-- Serde serialization of `ApixRequestTemplate` (empty maps and an absent
body are skipped, as the serde attributes say). -/
def requestTemplateToJson (t : ApixRequestTemplate) : Json :=
  .obj (.cons "method" (.str t.method)
    (.cons "url" (.str t.url)
      (objAppend (match t.headers with | [] => .nil | hs => .cons "headers" (.obj (stringMapToObj hs)) .nil)
        (objAppend (match t.queries with | [] => .nil | qs => .cons "queries" (.obj (stringMapToObj qs)) .nil)
          (match t.body with | some b => .cons "body" b .nil | Option.none => .nil)))))

/-- Serde serialization of `ApixRequest`. -/
def requestToJson (r : ApixRequest) : Json :=
  .obj (objAppend
    (match r.parameters with | [] => .nil | ps => .cons "parameters" (.arr (parametersToJsonArr ps)) .nil)
    (objAppend
      (match r.context with | .nil => .nil | ctx => .cons "context" (.obj ctx) .nil)
      (.cons "request" (requestTemplateToJson r.request) .nil)))

/-- Serde serialization of `ApixMetadata` (labels/annotations skipped when
empty; extensions are flattened into the metadata object). -/
def metadataToJson (m : ApixMetadata) : Json :=
  .obj (.cons "name" (.str m.name)
    (objAppend (match m.labels with | [] => .nil | ls => .cons "labels" (.obj (stringMapToObj ls)) .nil)
      (objAppend (match m.annotations with | [] => .nil | as_ => .cons "annotations" (.obj (stringMapToObj as_)) .nil)
        (stringMapToObj m.extensions))))

/-- Serde serialization of `ApixKind` under the adjacent tag
`kind`/`spec`.  Only the `Request` payload is serialized; the elided
payloads (never reachable from `RequestTemplate::new`) serialize as
null. -/
def kindToJsonFields : ApixKind → JsonObj
  | .request r => .cons "kind" (.str "Request") (.cons "spec" (requestToJson r) .nil)
  | .api => .cons "kind" (.str "Api") (.cons "spec" .null .nil)
  | .configuration => .cons "kind" (.str "Configuration") (.cons "spec" .null .nil)
  | .story => .cons "kind" (.str "Story") (.cons "spec" .null .nil)
  | .none => .cons "kind" (.str "None") .nil

/-- Serde serialization of a whole manifest (the value inserted under the
`manifest` key of the template context by `RequestTemplate::new`). -/
def manifestToJson : ApixManifest → Json
  | .v1 m =>
    .obj (.cons "apiVersion" (.str "apix.io/v1")
      (.cons "metadata" (metadataToJson m.metadata) (kindToJsonFields m.kind)))
  | .none => .obj (.cons "apiVersion" (.str "None") .nil)

/-! ## Parameter resolution (`src/dialog.rs`, `src/execute.rs`) -/

/-- Model of `ApixParameter::ask` (`src/dialog.rs`): a required parameter
is interactively prompted (masked without schema validation when
`password`, visible with JSON-schema validation otherwise); the oracle
`prompt` stands for the value obtained from the successful interaction.
A non-required parameter is not prompted and yields `Null`. -/
def dialogAsk (prompt : ApixParameter → Json) (p : ApixParameter) : Json :=
  if p.required then prompt p else Json.null

/-- Model of `ask_for_required_parameters` (`src/execute.rs`): with a CLI
map, the working set is every parameter that is required or CLI-supplied,
and a CLI-supplied value is used verbatim as a JSON string; without a CLI
map, only the required parameters are kept and prompted.  A prompt
failure aborts the whole resolution in the source; the embedding models
the successful interaction through the `prompt` oracle. -/
def askForRequiredParameters (prompt : ApixParameter → Json) (request : ApixRequest)
    (params : Option (List (String × String))) : List (String × Json) :=
  match params with
  | some ps =>
    (request.parameters.filter (fun p => p.required || (assocFind p.name ps).isSome)).map
      (fun p =>
        match assocFind p.name ps with
        | some v => (p.name, Json.str v)
        | Option.none => (p.name, dialogAsk prompt p))
  | Option.none =>
    (request.parameters.filter (fun p => p.required)).map
      (fun p => (p.name, dialogAsk prompt p))

/-- Collect a pair list into a JSON object, later bindings overriding
earlier ones (model of `collect::<serde_json::Map<_, _>>()`). -/
def pairsToObj (l : List (String × Json)) : JsonObj :=
  l.foldl (fun o kv => objInsert kv.1 kv.2 o) .nil

/-! ## Request template rendering (`src/execute.rs`) -/

/-- Model of `AdvancedBody` (`src/requests.rs`). -/
inductive AdvancedBody where
  | json (value : Json)
  | str (value : String)
  | file (path : String)
deriving DecidableEq

/-- Model of `RequestOptions` (`src/requests.rs`). -/
structure RequestOptions where
  verbose : Bool
  theme : String
  isOutputTerminal : Bool
  outputFilename : Option String
  proxyUrl : Option String
  proxyLogin : Option String
  proxyPassword : Option String
deriving DecidableEq

/-- Model of the `RequestTemplate` struct (`src/execute.rs`).  The `Tera`
engine field is only the named-template cache and is stateless in this
model. -/
structure RequestTemplate where
  request : ApixRequest
  context : JsonObj
  convertBodyToJson : Bool
  bodyFile : Option String
  outputFile : Option String
  file : String
deriving DecidableEq

/-- Model of `bool::from_str`. -/
def parseBoolStr : String → Option Bool
  | "true" => some true
  | "false" => some false
  | _ => Option.none

/-- Model of `RequestTemplate::new` (`src/execute.rs`): requires a
`Request` manifest, resolves the parameters, assembles the context
(`manifest`, `parameters`, `env`), and reads the three execution
directives from the *raw* annotation strings: the convert-body flag with
`bool::from_str` defaulting to `false`, and the body-file and output-file
annotation values stored as they are.  The process environment is the
`env` argument. -/
def RequestTemplate.new (manifest : ApixManifest) (file : String)
    (params : Option (List (String × String))) (env : List (String × String))
    (prompt : ApixParameter → Json) : Except String RequestTemplate :=
  match manifestKind manifest with
  | .request request =>
    let parameters := Json.obj (pairsToObj (askForRequiredParameters prompt request params))
    let context := objInsert "env" (.obj (stringMapToObj env))
      (objInsert "parameters" parameters
        (objInsert "manifest" (manifestToJson manifest) .nil))
    let convertBodyToJson :=
      ((annotationValue manifest "apix.io/convert-body-string-to-json").map
        (fun v => (parseBoolStr v).getD false)).getD false
    let bodyFile := annotationValue manifest "apix.io/body-file"
    let outputFile := annotationValue manifest "apix.io/output-file"
    .ok { request, context, convertBodyToJson, bodyFile, outputFile, file }
  | _ => .error "Request manifest expected"

/-- Model of `RequestTemplate::render_context` (`src/execute.rs`): render
the manifest-local context object through `render_value` and insert the
result under the `context` key of the template context. -/
def renderContext (t : RequestTemplate) : Except String RequestTemplate :=
  (renderValue (t.file ++ "#/context") (.obj t.request.context) t.context).map
    (fun rendered => { t with context := objInsert "context" rendered t.context })

/-- Model of `RequestTemplate::render_options` (`src/execute.rs`): only
when an output-file annotation is present *and* the CLI did not set an
output filename, the annotation value is rendered as a template and
becomes the output filename; every other field of the options is
returned unchanged. -/
def renderOptions (t : RequestTemplate) (options : RequestOptions) : Except String RequestOptions :=
  match t.outputFile, options.outputFilename with
  | some outputFile, Option.none =>
    (renderString (t.file ++ "#/output-file") outputFile t.context).map
      (fun rendered => { options with outputFilename := some rendered })
  | _, _ => .ok options

/-- Model of `RequestTemplate::render_url` (`src/execute.rs`). -/
def renderUrl (t : RequestTemplate) : Except String String :=
  renderString (t.file ++ "#/url") t.request.request.url t.context

/-- Model of `RequestTemplate::render_method` (`src/execute.rs`). -/
def renderMethod (t : RequestTemplate) : Except String String :=
  renderString (t.file ++ "#/method") t.request.request.method t.context

/-- Model of `RequestTemplate::render_queries` (`src/execute.rs`). -/
def renderQueries (t : RequestTemplate) : Except String (List (String × String)) :=
  renderMap (t.file ++ "#/queries") t.request.request.queries t.context

/-- The three ways a fallible Rust call can end: a returned `Ok`, a
returned `Err`, or a process abort through `panic!` / `.unwrap()`. -/
inductive Outcome (α : Type) where
  | ok (a : α)
  | err (e : String)
  | panicked
deriving DecidableEq

/-- The special characters of an HTTP token, by code point:
exclamation, hash, dollar, percent, ampersand, apostrophe, star, plus,
minus, dot, caret, underscore, backtick, pipe, tilde. -/
def tokenSpecialCodes : List Nat := [33, 35, 36, 37, 38, 39, 42, 43, 45, 46, 94, 95, 96, 124, 126]

/-- A character valid in an HTTP header name (model of the `http` crate
`HeaderName` byte table: lowercase letters, digits, the token specials;
uppercase letters are accepted and normalized to lowercase). -/
def headerNameChar (c : Char) : Bool :=
  ('a' ≤ c && c ≤ 'z') || ('A' ≤ c && c ≤ 'Z') || ('0' ≤ c && c ≤ '9') ||
    tokenSpecialCodes.contains c.toNat

/-- ASCII lowercasing (model of the lowercase normalization of header
names). -/
def lowerStr (s : String) : String := String.mk (s.data.map Char.toLower)

/-- ASCII uppercasing (model of `str::to_uppercase`; every string a
claim touches is ASCII). -/
def upperStr (s : String) : String := String.mk (s.data.map Char.toUpper)

/-- Model of `HeaderName::from_str`: a nonempty token, normalized to
lowercase; anything else is a parse error. -/
def parseHeaderName (s : String) : Option String :=
  if !s.data.isEmpty && s.data.all headerNameChar then some (lowerStr s) else Option.none

/-- A character valid in an HTTP header value (model of
`HeaderValue::from_str`: horizontal tab or any byte from 32 on except
DEL). -/
def headerValueChar (c : Char) : Bool :=
  c.toNat = 9 || (32 ≤ c.toNat && c.toNat ≠ 127)

/-- Model of `HeaderValue::from_str`. -/
def parseHeaderValue (s : String) : Option String :=
  if s.data.all headerValueChar then some s else Option.none

/-- The `HeaderMap::from_iter` step of `render_headers`
(`src/execute.rs` lines 142-160): each rendered pair is parsed with
`HeaderName::from_str(key).unwrap()` and
`HeaderValue::from_str(value).unwrap()` — a parse failure is a panic,
not a returned error. -/
def headerPairsParse : List (String × String) → Outcome (List (String × String))
  | [] => .ok []
  | (key, val) :: rest =>
    match parseHeaderName key with
    | Option.none => .panicked
    | some n =>
      match parseHeaderValue val with
      | Option.none => .panicked
      | some v =>
        match headerPairsParse rest with
        | .ok tail => .ok ((n, v) :: tail)
        | other => other

/-- Model of `RequestTemplate::render_headers` (`src/execute.rs`): render
the header map as templates (template errors are returned), then parse
every pair into a `HeaderMap` with unwraps (parse failures panic). -/
def renderHeadersOutcome (t : RequestTemplate) : Outcome (List (String × String)) :=
  match renderMap (t.file ++ "#/headers") t.request.request.headers t.context with
  | .error e => .err e
  | .ok rendered => headerPairsParse rendered

/-- Model of `RequestTemplate::render_body` (`src/execute.rs`), with the
external `serde_json::from_str` passed as the `parse` argument: a string
body under the convert-to-JSON directive is rendered and then parsed,
falling back to the rendered text as a JSON string on parse failure; any
other present body goes through `render_value`; an absent body with a
body-file directive renders the file path; otherwise there is no body. -/
def renderBody (parse : String → Option Json) (t : RequestTemplate) :
    Except String (Option AdvancedBody) :=
  match t.request.request.body, t.convertBodyToJson, t.bodyFile with
  | some (.str body), true, _ =>
    (renderString (t.file ++ "#/body") body t.context).map
      (fun rendered =>
        some (.json (match parse rendered with
          | some v => v
          | Option.none => .str rendered)))
  | some body, _, _ =>
    (renderValue (t.file ++ "#/body") body t.context).map (fun v => some (.json v))
  | Option.none, _, some filepath =>
    (renderString (t.file ++ "#/body-file") filepath t.context).map (fun p => some (.file p))
  | Option.none, _, Option.none => .ok Option.none

/-- Model of `RequestParams` (`src/execute.rs`). -/
structure RequestParams where
  url : String
  method : String
  headers : List (String × String)
  queries : List (String × String)
  body : Option AdvancedBody
  options : RequestOptions
deriving DecidableEq

/-- Model of `RequestTemplate::render_request_params` (`src/execute.rs`):
url, method, headers, queries, body and options are rendered in this
fixed order; the first failure wins, and a header-parse panic aborts the
process. -/
def renderRequestParams (parse : String → Option Json) (t : RequestTemplate)
    (options : RequestOptions) : Outcome RequestParams :=
  match renderUrl t with
  | .error e => .err e
  | .ok url =>
    match renderMethod t with
    | .error e => .err e
    | .ok method =>
      match renderHeadersOutcome t with
      | .err e => .err e
      | .panicked => .panicked
      | .ok headers =>
        match renderQueries t with
        | .error e => .err e
        | .ok queries =>
          match renderBody parse t with
          | .error e => .err e
          | .ok body =>
            match renderOptions t options with
            | .error e => .err e
            | .ok options' =>
              .ok { url, method, headers, queries, body, options := options' }

/-! ## HTTP execution engine (`src/requests.rs`, `src/http_utils.rs`) -/

/-- The product user agent (`CARGO_PKG_NAME "/" CARGO_PKG_VERSION`); the
exact version string is irrelevant to every claim. -/
def appUserAgent : String := "apix/0.1.0"

/-- Model of `DEFAULT_HEADERS` (`src/requests.rs`); header names are
stored lowercased, as `HeaderMap` does. -/
def defaultHeaders : List (String × String) :=
  [("user-agent", appUserAgent), ("accept", "application/json"),
    ("accept-encoding", "gzip"), ("content-type", "application/json")]

/-- Replace-or-append insertion into a header list (model of
`HeaderMap::insert`). -/
def assocInsert (key : String) (v : String) : List (String × String) → List (String × String)
  | [] => [(key, v)]
  | (k, w) :: rest => if key = k then (k, v) :: rest else (k, w) :: assocInsert key v rest

/-- Model of `merge_with_defaults` (`src/requests.rs`): start from the
default header set and insert every caller-supplied header over it, so
caller values win per key. -/
def mergeWithDefaults (headers : List (String × String)) : List (String × String) :=
  headers.foldl (fun merged kv => assocInsert kv.1 kv.2 merged) defaultHeaders

/-- The standard HTTP methods of the `http` crate. -/
def standardMethods : List String :=
  ["GET", "PUT", "POST", "HEAD", "PATCH", "TRACE", "DELETE", "OPTIONS", "CONNECT"]

/-- A character valid in an HTTP method token. -/
def methodTokenChar (c : Char) : Bool :=
  ('a' ≤ c && c ≤ 'z') || ('A' ≤ c && c ≤ 'Z') || ('0' ≤ c && c ≤ '9') ||
    tokenSpecialCodes.contains c.toNat

/-- Model of `http::Method::from_str`: one of the standard methods, or
any nonempty token as an extension method; anything else fails. -/
def methodFromStr (s : String) : Option String :=
  if standardMethods.contains s then some s
  else if !s.data.isEmpty && s.data.all methodTokenChar then some s
  else Option.none

/-- The body attachment a built request carries (step 4 of the
execution-engine contract; the actual file I/O of the `fileStream` case
is external). -/
inductive BodyPlan where
  | empty
  | raw (body : String)
  | fileStream (path : String)
  | jsonBody (value : Json)
deriving DecidableEq

/-- The pure content of the request built by `make_request`
(`src/requests.rs` lines 76-116) before it is sent: parsed method,
merged headers, queries, body attachment and proxy configuration. -/
structure RequestPlan where
  method : String
  headers : List (String × String)
  queries : List (String × String)
  body : BodyPlan
  usesProxy : Bool
  proxyAuth : Option (String × String)
deriving DecidableEq

/-- Model of the request-building prefix of `make_request`
(`src/requests.rs`): configure the proxy from the options, parse
`Method::from_str(&method.to_uppercase())`, merge the caller headers
over the defaults (defaults alone when none are supplied), attach the
queries and the body.  Proxy-URL validation and the file I/O of a
streamed body are external and elided; the method parse is the one
failure modelled. -/
def buildRequestPlan (method : String) (headers : Option (List (String × String)))
    (queries : Option (List (String × String))) (body : Option AdvancedBody)
    (options : RequestOptions) : Except String RequestPlan :=
  let usesProxy := options.proxyUrl.isSome
  let proxyAuth :=
    if usesProxy then
      match options.proxyLogin, options.proxyPassword with
      | some l, some p => some (l, p)
      | _, _ => Option.none
    else Option.none
  match methodFromStr (upperStr method) with
  | Option.none => .error "invalid method"
  | some m =>
    let hs := match headers with
      | some headers => mergeWithDefaults headers
      | Option.none => defaultHeaders
    let qs := queries.getD []
    let bodyPlan := match body with
      | some (.str b) => BodyPlan.raw b
      | some (.file path) => BodyPlan.fileStream path
      | some (.json v) => BodyPlan.jsonBody v
      | Option.none => BodyPlan.empty
    .ok { method := m, headers := hs, queries := qs, body := bodyPlan, usesProxy, proxyAuth }

/-- Whether `needle` is a prefix of `hay` (character lists). -/
def startsWithChars : List Char → List Char → Bool
  | [], _ => true
  | _ :: _, [] => false
  | n :: ns, h :: hs => n == h && startsWithChars ns hs

/-- Whether `needle` occurs as a contiguous run in the character list
(model of
`str::contains`, which is case-sensitive). -/
def charsContain (needle : List Char) : List Char → Bool
  | [] => needle.isEmpty
  | c :: rest => startsWithChars needle (c :: rest) || charsContain needle rest

/-- Model of `str::contains` with a string pattern: case-sensitive
substring containment. -/
def strContains (s pattern : String) : Bool := charsContain pattern.data s.data

/-- Model of `Language::get_language` (`src/http_utils.rs`): classify the
`Content-Type` header value by case-sensitive substring match in the
priority order json, xml, html, css, javascript; anything else present
is `txt`; an absent header yields `none`.  (The header value is taken
as a string; `to_str` failures on opaque bytes also fall to `txt` in
the source.) -/
def getLanguage (contentType : Option String) : Option String :=
  match contentType with
  | some ct =>
    if strContains ct "json" then some "json"
    else if strContains ct "xml" then some "xml"
    else if strContains ct "html" then some "html"
    else if strContains ct "css" then some "css"
    else if strContains ct "javascript" then some "js"
    else some "txt"
  | Option.none => Option.none

/-- Drop everything through the first `://` of a URL, if any (part of the
model of the `url` crate for the http(s)-style URLs apix sends). -/
def dropThroughSchemeSep : List Char → Option (List Char)
  | ':' :: '/' :: '/' :: rest => some rest
  | _ :: rest => dropThroughSchemeSep rest
  | [] => Option.none

/-- Model of `Url::parse(url)?.path_segments()`: for a URL with an
authority, the path after the authority split on `/` (at least one,
possibly empty, segment); `none` for a URL with no authority. -/
def urlPathSegments (url : String) : Option (List String) :=
  match dropThroughSchemeSep url.data with
  | Option.none => Option.none
  | some rest =>
    match rest.dropWhile (· != '/') with
    | [] => some [""]
    | _ :: path => some (splitOnChar '/' path)

/-- The download filename resolution of the binary branch of
`make_request` (`src/requests.rs` lines 130-138): the output filename
of the options, else the last URL path segment, else `unknown.bin`. -/
def resolvedDownloadFilename (options : RequestOptions) (url : String) : String :=
  match options.outputFilename with
  | some f => f
  | Option.none => ((urlPathSegments url).bind List.getLast?).getD "unknown.bin"

/-- What `make_request` does with the response (`src/requests.rs` lines
127-171), as a pure decision. -/
inductive ResponsePlan where
  | streamBinaryToStdout
  | streamBinaryToFile (filename : String)
  | writeTextFile (filename : String) (text : String)
  | prettyPrintText (text : String) (language : String)
  | silent
deriving DecidableEq

/-- Model of the response handling of `make_request` (`src/requests.rs`
lines 127-171): when the classified language is `Some("binary")` the
body is streamed — to standard output when output is *not* a terminal,
else to a file named by the resolved download filename; otherwise the
whole text is read and, when nonempty, written to the output filename
when one is set, else pretty-printed with the classified language
(empty-string tag when the classification is absent). -/
def responsePlan (url : String) (options : RequestOptions) (language : Option String)
    (bodyText : String) : ResponsePlan :=
  if language = some "binary" then
    let filename := resolvedDownloadFilename options url
    if !options.isOutputTerminal then .streamBinaryToStdout
    else .streamBinaryToFile filename
  else
    if bodyText = "" then .silent
    else
      match options.outputFilename with
      | some f => .writeTextFile f bodyText
      | Option.none => .prettyPrintText bodyText (language.getD "")

/-! ## Concrete fixtures used by witnesses and counterexamples -/

/-- A `RequestOptions` value with nothing set on the CLI side. -/
def emptyOptions : RequestOptions :=
  { verbose := false, theme := "", isOutputTerminal := false, outputFilename := Option.none,
    proxyUrl := Option.none, proxyLogin := Option.none, proxyPassword := Option.none }

/-- Body fixture for claim C5: a string body that is one template
expression, convert-to-JSON enabled, context binding `x` to the
non-JSON text `not json`. -/
def c5Request : ApixRequest :=
  { parameters := [], context := .nil,
    request :=
      { method := "POST", url := "https://api.test", headers := [], queries := [],
        body := some (.str "\x7b\x7bx\x7d\x7d") } }

/-- The rendering state for the C5 fixture. -/
def c5Template : RequestTemplate :=
  { request := c5Request, context := .cons "x" (.str "not json") .nil,
    convertBodyToJson := true, bodyFile := Option.none, outputFile := Option.none, file := "f" }

/-- Behaviour of `serde_json::from_str` on input that is not valid JSON. -/
def noJsonParse : String → Option Json := fun _ => Option.none

/-- Headers fixture for claim C8: a template-free header whose key
contains a space, which is not a valid HTTP header name. -/
def c8Request : ApixRequest :=
  { parameters := [], context := .nil,
    request :=
      { method := "GET", url := "https://api.test", headers := [("bad header", "x")],
        queries := [], body := Option.none } }

/-- The rendering state for the C8 fixture. -/
def c8Template : RequestTemplate :=
  { request := c8Request, context := .nil, convertBodyToJson := false,
    bodyFile := Option.none, outputFile := Option.none, file := "f" }

/-- Request payload of the C3 manifest fixture. -/
def c3Request : ApixRequest :=
  { parameters := [], context := .nil,
    request :=
      { method := "GET", url := "https://api.test", headers := [], queries := [],
        body := some (.str "1") } }

/-- Manifest fixture for claim C3: the convert-body-string-to-json
annotation holds a template expression that renders to `true`. -/
def c3Manifest : ApixManifest :=
  .v1 { metadata :=
          { name := "r", labels := [],
            annotations := [("apix.io/convert-body-string-to-json", "\x7b\x7benv.flag\x7d\x7d")],
            extensions := [] },
        kind := .request c3Request }

/-- Environment fixture for claim C3. -/
def c3Env : List (String × String) := [("flag", "true")]

/-- The context `RequestTemplate::new` assembles for the C3 fixture
(manifest, parameters, env). -/
def c3BaseContext : JsonObj :=
  objInsert "env" (.obj (stringMapToObj c3Env))
    (objInsert "parameters"
      (.obj (pairsToObj (askForRequiredParameters (fun _ => Json.null) c3Request Option.none)))
      (objInsert "manifest" (manifestToJson c3Manifest) .nil))

/-- The `RequestTemplate` value `RequestTemplate::new` produces for the
C3 fixture. -/
def c3Resolved : RequestTemplate :=
  { request := c3Request, context := c3BaseContext, convertBodyToJson := false,
    bodyFile := Option.none, outputFile := Option.none, file := "f" }

/-- Request payload for the C7 fixture. -/
def c7Request : ApixRequest :=
  { parameters := [], context := .nil,
    request :=
      { method := "GET", url := "https://api.test", headers := [], queries := [],
        body := Option.none } }

/-- Rendering state for claim C7: an output-file annotation holding a
template over `parameters.id`, with `id = 7` in the context. -/
def c7Template : RequestTemplate :=
  { request := c7Request,
    context := .cons "parameters" (.obj (.cons "id" (.num 7) .nil)) .nil,
    convertBodyToJson := false, bodyFile := Option.none,
    outputFile := some "out-\x7b\x7bparameters.id\x7d\x7d.json", file := "f" }

/-- Observation of a resolved-parameter list: first binding for a key
(how `serde_json::Map::get` sees the collected result). -/
def pairsFind (key : String) : List (String × Json) → Option Json
  | [] => Option.none
  | kv :: rest => if key = kv.1 then some kv.2 else pairsFind key rest

/-- Parameter fixture: a required parameter named `auth`. -/
def c6ReqParam : ApixParameter :=
  { name := "auth", required := true, password := false, description := Option.none,
    schema := some (.obj (.cons "type" (.str "string") .nil)) }

/-- Parameter fixture: a non-required parameter named `id`. -/
def c6OptParam : ApixParameter :=
  { name := "id", required := false, password := false, description := Option.none,
    schema := some (.obj (.cons "type" (.str "string") .nil)) }

/-- Request fixture with one required and one optional parameter. -/
def c6Request : ApixRequest :=
  { parameters := [c6ReqParam, c6OptParam], context := .nil,
    request :=
      { method := "GET", url := "u", headers := [], queries := [], body := Option.none } }

/-- Parameter fixture: a required parameter named `id`. -/
def c4Param : ApixParameter :=
  { name := "id", required := true, password := false, description := Option.none,
    schema := some (.obj (.cons "type" (.str "string") .nil)) }

/-- Request fixture with the single required parameter `id`. -/
def c4Request : ApixRequest :=
  { parameters := [c4Param], context := .nil,
    request :=
      { method := "GET", url := "u", headers := [], queries := [], body := Option.none } }

/-- No template opener occurs in the character list: no two consecutive
open braces. -/
def templateFreeChars : List Char → Bool
  | [] => true
  | [_] => true
  | c1 :: c2 :: rest => !(c1 == '\x7b' && c2 == '\x7b') && templateFreeChars (c2 :: rest)

/-- The list does not begin with an open brace. -/
def headNotOpenBrace : List Char → Bool
  | [] => true
  | c :: _ => !(c == '\x7b')

mutual

/-- A JSON value is template-free when none of its string leaves
contains a template opener (the "no template expressions" of claim C9). -/
def jsonTemplateFree : Json → Bool
  | .str s => templateFreeChars s.data
  | .arr elems => arrTemplateFree elems
  | .obj fields => objTemplateFree fields
  | _ => true

/-- Array part of `jsonTemplateFree`. -/
def arrTemplateFree : JsonArr → Bool
  | .nil => true
  | .cons hd tl => jsonTemplateFree hd && arrTemplateFree tl

/-- Object part of `jsonTemplateFree`. -/
def objTemplateFree : JsonObj → Bool
  | .nil => true
  | .cons _ v tl => jsonTemplateFree v && objTemplateFree tl

end

/-- Template-free JSON fixture for the witness of claim C9, shaped like
the leaf-only-substitution example of the spec with plain leaves. -/
def c9Value : Json :=
  .obj (.cons "a" (.str "v")
    (.cons "b" (.num 3)
      (.cons "c" (.arr (.cons (.bool true) (.cons (.str "w") .nil))) .nil)))

/-! ## Theorems -/

/-- Claim C2, counterexample: content-type classification is
case-sensitive, not case-insensitive.  The header value
`APPLICATION/JSON` contains `json` case-insensitively (its lowercasing
contains `json`), yet `get_language` classifies it as `txt`, not
`json`. -/
theorem c2_counterexample :
    strContains (lowerStr "APPLICATION/JSON") "json" = true ∧
    getLanguage (some "APPLICATION/JSON") = some "txt" := by
  constructor
  · decide
  · rfl

/-- Claim C2 (amended): classification is a pure function of the
`Content-Type` header string, matched *case-sensitively* by substring in
the priority order json, xml, html, css, javascript (first match wins);
an unmatched-but-present value yields `txt`, and an absent header yields
the absent/"binary" sentinel (`none`).  The six content-types the spec
lists classify as it says. -/
theorem c2_classification (ct : String) :
    (strContains ct "json" = true → getLanguage (some ct) = some "json") ∧
    (strContains ct "json" = false → strContains ct "xml" = true →
      getLanguage (some ct) = some "xml") ∧
    (strContains ct "json" = false → strContains ct "xml" = false →
      strContains ct "html" = true → getLanguage (some ct) = some "html") ∧
    (strContains ct "json" = false → strContains ct "xml" = false →
      strContains ct "html" = false → strContains ct "css" = true →
      getLanguage (some ct) = some "css") ∧
    (strContains ct "json" = false → strContains ct "xml" = false →
      strContains ct "html" = false → strContains ct "css" = false →
      strContains ct "javascript" = true → getLanguage (some ct) = some "js") ∧
    (strContains ct "json" = false → strContains ct "xml" = false →
      strContains ct "html" = false → strContains ct "css" = false →
      strContains ct "javascript" = false → getLanguage (some ct) = some "txt") ∧
    getLanguage Option.none = Option.none ∧
    getLanguage (some "application/json") = some "json" ∧
    getLanguage (some "application/xml") = some "xml" ∧
    getLanguage (some "text/html") = some "html" ∧
    getLanguage (some "text/css") = some "css" ∧
    getLanguage (some "text/javascript") = some "js" ∧
    getLanguage (some "text/plain") = some "txt" := by
  refine ⟨?_, ?_, ?_, ?_, ?_, ?_, rfl, rfl, rfl, rfl, rfl, rfl, rfl⟩ <;>
    · intros
      simp only [getLanguage]
      simp [*]

/-- Claim C2, witness for the amended theorem at `application/json`. -/
theorem c2_classification_witness :
    strContains "application/json" "json" = true ∧
    getLanguage (some "application/json") = some "json" :=
  ⟨by decide, (c2_classification "application/json").1 (by decide)⟩

/-- Claim C1: the streaming branch of `make_request` tests the
classification against `Some("binary")`, but `get_language` never
produces the string `binary` (it yields one of json, xml, html, css,
js, txt, or `None` when the header is absent).  The branch is therefore
unreachable: a response with no `Content-Type` header is *not* streamed;
its whole text is read and, here (output not a terminal, no output
filename, nonempty body), pretty-printed with an empty language tag. -/
theorem c1_binary_branch_unreachable :
    (∀ ct : Option String, getLanguage ct ≠ some "binary") ∧
    (∀ (url : String) (options : RequestOptions) (ct : Option String) (bodyText : String)
      (fn : String),
      responsePlan url options (getLanguage ct) bodyText ≠ .streamBinaryToStdout ∧
      responsePlan url options (getLanguage ct) bodyText ≠ .streamBinaryToFile fn) ∧
    responsePlan "https://api.test/a/report" emptyOptions (getLanguage Option.none) "x" =
      .prettyPrintText "x" "" := by
  have hbin : ∀ ct : Option String, getLanguage ct ≠ some "binary" := by
    intro ct
    cases ct with
    | none => simp [getLanguage]
    | some s =>
      simp only [getLanguage]
      split_ifs <;> simp
  refine ⟨hbin, ?_, rfl⟩
  intro url options ct bodyText fn
  have h := hbin ct
  simp only [responsePlan, if_neg h]
  constructor <;> · split_ifs <;> cases options.outputFilename <;> simp

/-- Claim C10: `make_request` parses
`Method::from_str(&method.to_uppercase())` — request building is
case-insensitive in the method (equal uppercasings give equal plans),
any method whose uppercased form parses is used in that uppercased,
parsed form, and building fails exactly when the uppercased string is
not a valid method. -/
theorem c10_method_case_insensitive :
    (∀ (m₁ m₂ : String) (headers : Option (List (String × String)))
      (queries : Option (List (String × String))) (body : Option AdvancedBody)
      (options : RequestOptions), upperStr m₁ = upperStr m₂ →
      buildRequestPlan m₁ headers queries body options =
        buildRequestPlan m₂ headers queries body options) ∧
    (∀ (m : String) (headers : Option (List (String × String)))
      (queries : Option (List (String × String))) (body : Option AdvancedBody)
      (options : RequestOptions) (M : String), methodFromStr (upperStr m) = some M →
      ∃ plan, buildRequestPlan m headers queries body options = .ok plan ∧ plan.method = M) ∧
    (∀ (m : String) (headers : Option (List (String × String)))
      (queries : Option (List (String × String))) (body : Option AdvancedBody)
      (options : RequestOptions), methodFromStr (upperStr m) = Option.none →
      buildRequestPlan m headers queries body options = .error "invalid method") := by
  refine ⟨?_, ?_, ?_⟩
  · intro m₁ m₂ headers queries body options h
    simp only [buildRequestPlan, h]
  · intro m headers queries body options M h
    simp only [buildRequestPlan, h]
    exact ⟨_, rfl, rfl⟩
  · intro m headers queries body options h
    simp only [buildRequestPlan, h]

/-- Claim C10, witness: `get`, `Get` and `GET` all build a `GET`
request. -/
theorem c10_method_case_insensitive_witness :
    methodFromStr (upperStr "get") = some "GET" ∧
    upperStr "get" = upperStr "Get" ∧
    (∃ plan, buildRequestPlan "get" Option.none Option.none Option.none emptyOptions = .ok plan ∧
      plan.method = "GET") ∧
    buildRequestPlan "get" Option.none Option.none Option.none emptyOptions =
      buildRequestPlan "Get" Option.none Option.none Option.none emptyOptions :=
  ⟨by decide, by decide,
    c10_method_case_insensitive.2.1 "get" Option.none Option.none Option.none emptyOptions "GET"
      (by decide),
    c10_method_case_insensitive.1 "get" "Get" Option.none Option.none Option.none emptyOptions
      (by decide)⟩

/-- Claim C5: under the convert-body-string-to-JSON directive, a string
body is rendered and the rendered text parsed as JSON; a parse failure
is not an error — the result is `AdvancedBody::Json` wrapping the
rendered text as a JSON string — and a parse success wraps the parsed
value.  `parse` is the external `serde_json::from_str`. -/
theorem c5_body_conversion_fallback (parse : String → Option Json) (t : RequestTemplate)
    (body rendered : String) :
    t.request.request.body = some (.str body) → t.convertBodyToJson = true →
    renderString (t.file ++ "#/body") body t.context = .ok rendered →
    (parse rendered = Option.none → renderBody parse t = .ok (some (.json (.str rendered)))) ∧
    (∀ v : Json, parse rendered = some v → renderBody parse t = .ok (some (.json v))) := by
  intro hbody hflag hrender
  refine ⟨fun hparse => ?_, fun v hparse => ?_⟩ <;>
    simp [renderBody, hbody, hflag, hrender, hparse, Except.map]

/-- Claim C5, witness: body `(two-brace)x(two-brace)` with conversion
enabled and `x = "not json"` renders to
`AdvancedBody::Json(String("not json"))`, not an error. -/
theorem c5_body_conversion_fallback_witness :
    c5Template.request.request.body = some (.str "\x7b\x7bx\x7d\x7d") ∧
    c5Template.convertBodyToJson = true ∧
    renderString (c5Template.file ++ "#/body") "\x7b\x7bx\x7d\x7d" c5Template.context =
      .ok "not json" ∧
    renderBody noJsonParse c5Template = .ok (some (.json (.str "not json"))) :=
  ⟨by decide, by decide, by rfl,
    (c5_body_conversion_fallback noJsonParse c5Template "\x7b\x7bx\x7d\x7d" "not json"
      (by decide) (by decide) (by rfl)).1 rfl⟩

/-- Claim C7: `render_options` merges the CLI options with the
output-file annotation fallback — every non-output field is returned
unchanged whatever happens; a CLI-set output filename freezes the
options entirely; and only when the CLI leaves the output filename
unset and the annotation is present does the rendered annotation become
the output filename, all other fields passing through. -/
theorem c7_options_merge (t : RequestTemplate) (options : RequestOptions) :
    (∀ r : RequestOptions, renderOptions t options = .ok r →
      r.verbose = options.verbose ∧ r.theme = options.theme ∧
      r.isOutputTerminal = options.isOutputTerminal ∧ r.proxyUrl = options.proxyUrl ∧
      r.proxyLogin = options.proxyLogin ∧ r.proxyPassword = options.proxyPassword) ∧
    (∀ f : String, options.outputFilename = some f → renderOptions t options = .ok options) ∧
    (∀ a s : String, t.outputFile = some a → options.outputFilename = Option.none →
      renderString (t.file ++ "#/output-file") a t.context = .ok s →
      renderOptions t options = .ok { options with outputFilename := some s }) := by
  refine ⟨?_, ?_, ?_⟩
  · intro r hr
    rcases ht : t.outputFile with _ | a <;> rcases ho : options.outputFilename with _ | f <;>
      simp only [renderOptions, ht, ho] at hr
    · cases hr
      exact ⟨rfl, rfl, rfl, rfl, rfl, rfl⟩
    · cases hr
      exact ⟨rfl, rfl, rfl, rfl, rfl, rfl⟩
    · rcases hren : renderString (t.file ++ "#/output-file") a t.context with e | s <;>
        rw [hren] at hr <;> simp [Except.map] at hr
      rw [← hr]
      exact ⟨rfl, rfl, rfl, rfl, rfl, rfl⟩
    · cases hr
      exact ⟨rfl, rfl, rfl, rfl, rfl, rfl⟩
  · intro f hf
    rcases ht : t.outputFile with _ | a <;> simp [renderOptions, ht, hf]
  · intro a s ha ho hren
    simp [renderOptions, ha, ho, hren, Except.map]

/-- Claim C8: a rendered header key that is not a valid HTTP header name
does *not* produce an error returned to the caller — `render_headers`
unwraps the parse result, so the process panics.  Rendering itself
succeeds (the values are template-free), the key fails to parse, and
both `render_headers` and the whole `render_request_params` end in the
panic, not in a returned `Err`. -/
theorem c8_header_parse_panics :
    renderMap (c8Template.file ++ "#/headers") c8Template.request.request.headers
      c8Template.context = .ok [("bad header", "x")] ∧
    parseHeaderName "bad header" = Option.none ∧
    renderHeadersOutcome c8Template = .panicked ∧
    renderRequestParams noJsonParse c8Template emptyOptions = .panicked := by
  refine ⟨by rfl, by decide, by rfl, by rfl⟩

/-- Claim C3, counterexample: with the convert-body annotation set to a
template expression that renders to `true` against the assembled
context (as `renderMap` over the annotations map shows), the directive
does *not* take effect with the rendered value — `RequestTemplate::new`
parses the raw annotation string and yields `false`. -/
theorem c3_counterexample :
    RequestTemplate.new c3Manifest "f" Option.none c3Env (fun _ => Json.null) = .ok c3Resolved ∧
    c3Resolved.convertBodyToJson = false ∧
    renderMap "f#/annotations"
      [("apix.io/convert-body-string-to-json", "\x7b\x7benv.flag\x7d\x7d")] c3BaseContext =
      .ok [("apix.io/convert-body-string-to-json", "true")] ∧
    parseBoolStr "true" = some true := by
  refine ⟨by rfl, by rfl, by rfl, by rfl⟩

/-- Claim C3 (amended): `RequestTemplate::new` does not render the
annotations map; it reads the three directives from the raw annotation
strings — the convert-body flag is true exactly when the raw value is
the literal `true` (so a templated value yields `false`), and the
body-file and output-file values are stored raw (each is rendered
individually later, at its point of use). -/
theorem c3_annotations_read_raw (manifest : ApixManifest) (file : String)
    (params : Option (List (String × String))) (env : List (String × String))
    (prompt : ApixParameter → Json) (t : RequestTemplate) :
    RequestTemplate.new manifest file params env prompt = .ok t →
    (t.convertBodyToJson =
      ((annotationValue manifest "apix.io/convert-body-string-to-json").map
        (fun v => v == "true")).getD false) ∧
    t.bodyFile = annotationValue manifest "apix.io/body-file" ∧
    t.outputFile = annotationValue manifest "apix.io/output-file" := by
  intro h
  unfold RequestTemplate.new at h
  rcases hk : manifestKind manifest with _ | _ | r | _ | _ <;> rw [hk] at h <;> dsimp only at h
  case api => exact Except.noConfusion h
  case configuration => exact Except.noConfusion h
  case story => exact Except.noConfusion h
  case none => exact Except.noConfusion h
  injection h with h
  subst h
  refine ⟨?_, rfl, rfl⟩
  dsimp only
  rcases ha : annotationValue manifest "apix.io/convert-body-string-to-json" with _ | v
  · simp [ha]
  · by_cases h1 : v = "true"
    · subst h1
      decide
    · have hp : parseBoolStr v = Option.none ∨ parseBoolStr v = some false := by
        by_cases h2 : v = "false"
        · subst h2
          right
          rfl
        · left
          simp [parseBoolStr, h1, h2]
      have hb : (v == "true") = false := by simp [h1]
      rcases hp with hp | hp <;> simp [ha, hp, hb]

/-- Claim C3, witness for the amended theorem at the C3 fixture. -/
theorem c3_annotations_read_raw_witness :
    RequestTemplate.new c3Manifest "f" Option.none c3Env (fun _ => Json.null) = .ok c3Resolved ∧
    (c3Resolved.convertBodyToJson =
      ((annotationValue c3Manifest "apix.io/convert-body-string-to-json").map
        (fun v => v == "true")).getD false) ∧
    c3Resolved.bodyFile = annotationValue c3Manifest "apix.io/body-file" ∧
    c3Resolved.outputFile = annotationValue c3Manifest "apix.io/output-file" :=
  ⟨by rfl,
    c3_annotations_read_raw c3Manifest "f" Option.none c3Env (fun _ => Json.null) c3Resolved
      (by rfl)⟩

/-- Claim C7, witness: annotation `out-(two-brace)parameters.id(two-brace).json`
with parameter `id = 7` and no CLI output filename renders the effective
output filename `out-7.json`, all other option fields unchanged. -/
theorem c7_options_merge_witness :
    c7Template.outputFile = some "out-\x7b\x7bparameters.id\x7d\x7d.json" ∧
    emptyOptions.outputFilename = Option.none ∧
    renderString (c7Template.file ++ "#/output-file") "out-\x7b\x7bparameters.id\x7d\x7d.json"
      c7Template.context = .ok "out-7.json" ∧
    renderOptions c7Template emptyOptions =
      .ok { emptyOptions with outputFilename := some "out-7.json" } :=
  ⟨by decide, by decide, by rfl,
    (c7_options_merge c7Template emptyOptions).2.2 "out-\x7b\x7bparameters.id\x7d\x7d.json"
      "out-7.json" (by decide) (by decide) (by rfl)⟩

/-- Helper for C4: in the CLI branch of the resolver, the first binding
found for a name that is CLI-supplied is the supplied value, verbatim,
as a JSON string — whatever the prompt oracle does. -/
theorem askList_cli (prompt : ApixParameter → Json) (ps : List (String × String))
    (name v : String) (hps : assocFind name ps = some v) :
    ∀ l : List ApixParameter, (∃ p, p ∈ l ∧ p.name = name) →
    pairsFind name
      ((l.filter (fun p => p.required || (assocFind p.name ps).isSome)).map
        (fun p =>
          match assocFind p.name ps with
          | some w => (p.name, Json.str w)
          | Option.none => (p.name, dialogAsk prompt p))) = some (.str v) := by
  intro l
  induction l with
  | nil =>
    rintro ⟨p, hp, _⟩
    exact absurd hp (List.not_mem_nil p)
  | cons q rest ih =>
    rintro ⟨p, hp, hname⟩
    by_cases hq : q.name = name
    · have hsup : assocFind q.name ps = some v := by rw [hq]; exact hps
      have hfil : (q.required || (assocFind q.name ps).isSome) = true := by
        rw [hsup]
        simp
      rw [List.filter_cons, if_pos hfil, List.map_cons]
      simp only [hsup]
      simp [pairsFind, hq]
    · have hrest : ∃ p, p ∈ rest ∧ p.name = name := by
        rcases List.mem_cons.mp hp with he | hm
        · exact absurd (he ▸ hname) hq
        · exact ⟨p, hm, hname⟩
      have hkey : (match assocFind q.name ps with
          | some w => (q.name, Json.str w)
          | Option.none => (q.name, dialogAsk prompt q)).1 = q.name := by
        cases assocFind q.name ps <;> rfl
      cases hfil : (q.required || (assocFind q.name ps).isSome) with
      | true =>
        rw [List.filter_cons, if_pos hfil, List.map_cons]
        simp only [pairsFind]
        rw [hkey, if_neg (fun he => hq he.symm)]
        exact ih hrest
      | false =>
        rw [List.filter_cons, if_neg (by simp [hfil])]
        exact ih hrest

/-- Claim C4: a CLI-supplied parameter (required or not) is bound to the
CLI value verbatim as a JSON string — no schema validation transforms
it, and the binding is the same for every prompt oracle, i.e. no
interactive prompt is involved for that parameter. -/
theorem c4_cli_value_verbatim (prompt : ApixParameter → Json) (request : ApixRequest)
    (ps : List (String × String)) (name v : String) :
    (∃ p, p ∈ request.parameters ∧ p.name = name) →
    assocFind name ps = some v →
    pairsFind name (askForRequiredParameters prompt request (some ps)) = some (.str v) := by
  intro hex hps
  simpa [askForRequiredParameters] using askList_cli prompt ps name v hps request.parameters hex

/-- Claim C4, witness: required parameter `id` CLI-supplied as `42` is
bound to the JSON string `"42"`. -/
theorem c4_cli_value_verbatim_witness :
    (∃ p, p ∈ c4Request.parameters ∧ p.name = "id") ∧
    assocFind "id" [("id", "42")] = some "42" ∧
    pairsFind "id" (askForRequiredParameters (fun _ => Json.null) c4Request (some [("id", "42")])) =
      some (.str "42") :=
  ⟨⟨c4Param, by decide, by decide⟩, by decide,
    c4_cli_value_verbatim (fun _ => Json.null) c4Request [("id", "42")] "id" "42"
      ⟨c4Param, by decide, by decide⟩ (by decide)⟩

/-- Helper for C6: a key has a binding in a pair list exactly when some
entry carries it. -/
theorem pairsFind_isSome_iff (name : String) :
    ∀ l : List (String × Json), (pairsFind name l).isSome = true ↔ ∃ kv, kv ∈ l ∧ kv.1 = name := by
  intro l
  induction l with
  | nil => simp [pairsFind]
  | cons kv rest ih =>
    by_cases h : name = kv.1
    · simp only [pairsFind, if_pos h, Option.isSome_some, true_iff]
      exact ⟨kv, List.mem_cons_self kv rest, h.symm⟩
    · simp only [pairsFind, if_neg h]
      rw [ih]
      constructor
      · rintro ⟨kv2, hm, hk⟩
        exact ⟨kv2, List.mem_cons_of_mem kv hm, hk⟩
      · rintro ⟨kv2, hm, hk⟩
        rcases List.mem_cons.mp hm with he | hm2
        · exact absurd (he ▸ hk).symm h
        · exact ⟨kv2, hm2, hk⟩

/-- Claim C6: the resolver result binds exactly the working set — with
a CLI map, the names of parameters that are required or CLI-supplied;
without one, the names of required parameters.  A parameter that is
neither required nor supplied has no binding at all (in particular it is
never bound to an explicit JSON null). -/
theorem c6_working_set (prompt : ApixParameter → Json) (request : ApixRequest) (name : String) :
    (∀ ps : List (String × String),
      ((pairsFind name (askForRequiredParameters prompt request (some ps))).isSome = true ↔
        ∃ p, p ∈ request.parameters ∧ p.name = name ∧
          (p.required = true ∨ (assocFind name ps).isSome = true))) ∧
    ((pairsFind name (askForRequiredParameters prompt request Option.none)).isSome = true ↔
      ∃ p, p ∈ request.parameters ∧ p.name = name ∧ p.required = true) := by
  constructor
  · intro ps
    rw [pairsFind_isSome_iff]
    simp only [askForRequiredParameters]
    constructor
    · rintro ⟨kv, hm, hk⟩
      rcases List.mem_map.mp hm with ⟨p, hpf, hpe⟩
      rcases List.mem_filter.mp hpf with ⟨hpl, hcond⟩
      have hfst : kv.1 = p.name := by
        rw [← hpe]
        cases assocFind p.name ps <;> rfl
      have hpname : p.name = name := by rw [← hfst, hk]
      refine ⟨p, hpl, hpname, ?_⟩
      rw [← hpname]
      exact (Bool.or_eq_true _ _).mp hcond
    · rintro ⟨p, hpl, hpname, hcond⟩
      refine ⟨(match assocFind p.name ps with
        | some w => (p.name, Json.str w)
        | Option.none => (p.name, dialogAsk prompt p)), ?_, ?_⟩
      · refine List.mem_map.mpr ⟨p, List.mem_filter.mpr ⟨hpl, ?_⟩, rfl⟩
        rw [hpname]
        exact (Bool.or_eq_true _ _).mpr hcond
      · cases assocFind p.name ps <;> exact hpname
  · rw [pairsFind_isSome_iff]
    simp only [askForRequiredParameters]
    constructor
    · rintro ⟨kv, hm, hk⟩
      rcases List.mem_map.mp hm with ⟨p, hpf, hpe⟩
      rcases List.mem_filter.mp hpf with ⟨hpl, hcond⟩
      exact ⟨p, hpl, by rw [← hpe] at hk; exact hk, hcond⟩
    · rintro ⟨p, hpl, hpname, hreq⟩
      exact ⟨(p.name, dialogAsk prompt p),
        List.mem_map.mpr ⟨p, List.mem_filter.mpr ⟨hpl, hreq⟩, rfl⟩, hpname⟩

/-- Claim C6, witness: with CLI map `id=7`, the non-required supplied
parameter `id` is bound; with no CLI map it is absent (and in both
cases the required parameter `auth` is bound). -/
theorem c6_working_set_witness :
    (pairsFind "id" (askForRequiredParameters (fun _ => Json.str "w") c6Request
      (some [("id", "7")]))).isSome = true ∧
    (pairsFind "id" (askForRequiredParameters (fun _ => Json.str "w") c6Request
      Option.none)).isSome = false ∧
    (pairsFind "auth" (askForRequiredParameters (fun _ => Json.str "w") c6Request
      Option.none)).isSome = true :=
  ⟨((c6_working_set (fun _ => Json.str "w") c6Request "id").1 [("id", "7")]).mpr
      ⟨c6OptParam, by decide, by decide, Or.inr (by decide)⟩,
    by decide,
    (c6_working_set (fun _ => Json.str "w") c6Request "auth").2.mpr
      ⟨c6ReqParam, by decide, by decide, by decide⟩⟩

/-- Helper for C9: template-freeness passes to the tail. -/
theorem templateFreeChars_tail (c : Char) (rest : List Char) :
    templateFreeChars (c :: rest) = true → templateFreeChars rest = true := by
  cases rest with
  | nil => intro _; rfl
  | cons c2 r2 =>
    intro h
    simp only [templateFreeChars, Bool.and_eq_true] at h
    exact h.2

/-- Helper for C9: after an open brace, a template-free list does not
continue with a second open brace. -/
theorem templateFreeChars_open_head (rest : List Char) :
    templateFreeChars ('\x7b' :: rest) = true → headNotOpenBrace rest = true := by
  cases rest with
  | nil => intro _; rfl
  | cons c2 r2 =>
    intro h
    simp only [templateFreeChars, Bool.and_eq_true] at h
    have h1 := h.1
    simp only [beq_self_eq_true, Bool.true_and] at h1
    simpa [headNotOpenBrace] using h1

/-- Helper for C9: on template-free input the interpolation engine is
the identity (joint statement for the text and one-open-brace scanner
modes). -/
theorem teraScan_free (name : String) (ctx : JsonObj) :
    ∀ cs : List Char,
      (templateFreeChars cs = true → teraScan name ctx .text cs = .ok cs) ∧
      (headNotOpenBrace cs = true → templateFreeChars cs = true →
        teraScan name ctx .brace1 cs = .ok ('\x7b' :: cs)) := by
  intro cs
  induction cs with
  | nil => exact ⟨fun _ => rfl, fun _ _ => rfl⟩
  | cons c rest ih =>
    constructor
    · intro hfree
      by_cases hc : c = '\x7b'
      · subst hc
        simp only [teraScan]
        rw [if_pos trivial]
        exact ih.2 (templateFreeChars_open_head rest hfree) (templateFreeChars_tail _ _ hfree)
      · simp only [teraScan]
        rw [if_neg hc, ih.1 (templateFreeChars_tail _ _ hfree)]
        rfl
    · intro hhead hfree
      have hc : ¬ c = '\x7b' := by
        intro he
        rw [he] at hhead
        simp [headNotOpenBrace] at hhead
      simp only [teraScan]
      rw [if_neg hc, ih.1 (templateFreeChars_tail _ _ hfree)]
      rfl

/-- Helper for C9: `render_string` is the identity on template-free
content. -/
theorem renderString_free (name content : String) (ctx : JsonObj) :
    templateFreeChars content.data = true → renderString name content ctx = .ok content := by
  intro h
  unfold renderString
  rw [(teraScan_free name ctx content.data).1 h]
  rfl

mutual

/-- Helper for C9: `render_value` is the identity on template-free JSON
values. -/
theorem renderValue_free_id (name : String) (ctx : JsonObj) :
    ∀ v : Json, jsonTemplateFree v = true → renderValue name v ctx = .ok v
  | .null, _ => rfl
  | .bool _, _ => rfl
  | .num _, _ => rfl
  | .str s, h => by
    simp only [renderValue]
    rw [renderString_free name s ctx (by simpa [jsonTemplateFree] using h)]
    rfl
  | .arr elems, h => by
    simp only [renderValue]
    rw [renderValueArr_free_id name ctx 0 elems (by simpa [jsonTemplateFree] using h)]
    rfl
  | .obj fields, h => by
    simp only [renderValue]
    rw [renderValueObj_free_id name ctx fields (by simpa [jsonTemplateFree] using h)]
    rfl

/-- Object part of the C9 identity helper. -/
theorem renderValueObj_free_id (name : String) (ctx : JsonObj) :
    ∀ fields : JsonObj, objTemplateFree fields = true → renderValueObj name fields ctx = .ok fields
  | .nil, _ => rfl
  | .cons k v tl, h => by
    have h2 : jsonTemplateFree v = true ∧ objTemplateFree tl = true := by
      simpa [objTemplateFree, Bool.and_eq_true] using h
    simp only [renderValueObj]
    rw [renderValue_free_id (name ++ "." ++ k) ctx v h2.1,
      renderValueObj_free_id name ctx tl h2.2]
    rfl

/-- Array part of the C9 identity helper. -/
theorem renderValueArr_free_id (name : String) (ctx : JsonObj) :
    ∀ (index : Nat) (elems : JsonArr), arrTemplateFree elems = true →
      renderValueArr name index elems ctx = .ok elems
  | _, .nil, _ => rfl
  | index, .cons hd tl, h => by
    have h2 : jsonTemplateFree hd = true ∧ arrTemplateFree tl = true := by
      simpa [arrTemplateFree, Bool.and_eq_true] using h
    simp only [renderValueArr]
    rw [renderValue_free_id (name ++ "." ++ toString index) ctx hd h2.1,
      renderValueArr_free_id name ctx (index + 1) tl h2.2]
    rfl

end

/-- Claim C9: `render_value` is the identity on template-free input —
any JSON value none of whose string leaves contains a template opener
renders to itself — and the non-string scalars (numbers, booleans,
null) pass through unconditionally. -/
theorem c9_render_value_identity (name : String) (v : Json) (ctx : JsonObj) :
    (jsonTemplateFree v = true → renderValue name v ctx = .ok v) ∧
    (∀ n : Int, renderValue name (.num n) ctx = .ok (.num n)) ∧
    (∀ b : Bool, renderValue name (.bool b) ctx = .ok (.bool b)) ∧
    renderValue name .null ctx = .ok .null :=
  ⟨renderValue_free_id name ctx v, fun _ => rfl, fun _ => rfl, rfl⟩

/-- Claim C9, witness: the object `(a: "v", b: 3, c: [true, "w"])` is
template-free and renders to itself. -/
theorem c9_render_value_identity_witness :
    jsonTemplateFree c9Value = true ∧
    renderValue "t" c9Value (.cons "x" (.str "y") .nil) = .ok c9Value :=
  ⟨by decide,
    (c9_render_value_identity "t" c9Value (.cons "x" (.str "y") .nil)).1 (by decide)⟩
